import Mathlib

/-!
Verification of the AI Street Market services (Banker, World Engine,
Governor, Trading Agent runtime) against their natural-language
specification.  The Python dictionaries of the services are embedded as
association lists over `String` keys; Python `int` is embedded as `ℤ` and
Python `float` amounts (wallets, prices) as `ℚ` with exact arithmetic.
Each definition mirrors one function of the source tree.
-/

namespace StreetMarket

/-! ## Dictionary primitives

Python `dict[str, α]` is embedded as `List (String × α)`.  Keys of a real
Python dict are unique; `dset` replaces the first binding (Python update
keeps the key position), appending a fresh binding at the end (Python
insertion order), and `ddel` drops the key (`del d[k]`). -/

/-- Lookup of a key, mirroring `d.get(k)` / `d[k]`. -/
def dlookup {α : Type} : List (String × α) → String → Option α
  | [], _ => none
  | p :: rest, k => if p.1 = k then some p.2 else dlookup rest k

/-- Update `d[k] = v`: replace the first binding of `k`, else append. -/
def dset {α : Type} : List (String × α) → String → α → List (String × α)
  | [], k, v => [(k, v)]
  | p :: rest, k, v => if p.1 = k then (k, v) :: rest else p :: dset rest k v

/-- Deletion `del d[k]` (dict keys are unique, so dropping the key). -/
def ddel {α : Type} (d : List (String × α)) (k : String) : List (String × α) :=
  d.filter (fun p => !(p.1 == k))

/-- Integer-counted lookup with default `0`, mirroring `d.get(k, 0)`. -/
def dget (d : List (String × ℤ)) (k : String) : ℤ :=
  (dlookup d k).getD 0

theorem dlookup_dset_self {α : Type} (d : List (String × α)) (k : String) (v : α) :
    dlookup (dset d k v) k = some v := by
  induction d with
  | nil => simp [dset, dlookup]
  | cons p rest ih =>
    by_cases h : p.1 = k
    · simp [dset, h, dlookup]
    · simp [dset, h, dlookup, ih]

theorem dlookup_dset_ne {α : Type} (d : List (String × α)) (k k2 : String) (v : α)
    (h : k2 ≠ k) : dlookup (dset d k v) k2 = dlookup d k2 := by
  have hk : ¬ k = k2 := fun hh => h hh.symm
  induction d with
  | nil => simp [dset, dlookup, hk]
  | cons p rest ih =>
    by_cases hp : p.1 = k
    · have hpk2 : ¬ p.1 = k2 := by rw [hp]; exact hk
      simp only [dset, if_pos hp, dlookup, if_neg hk, if_neg hpk2]
    · simp only [dset, if_neg hp, dlookup]
      by_cases hp2 : p.1 = k2
      · simp [hp2]
      · simp [hp2, ih]

theorem ddel_cons_self {α : Type} {p : String × α} {rest : List (String × α)}
    {k : String} (h : p.1 = k) : ddel (p :: rest) k = ddel rest k := by
  simp [ddel, List.filter_cons, h]

theorem ddel_cons_ne {α : Type} {p : String × α} {rest : List (String × α)}
    {k : String} (h : ¬ p.1 = k) : ddel (p :: rest) k = p :: ddel rest k := by
  simp [ddel, List.filter_cons, h]

theorem dlookup_ddel_self {α : Type} (d : List (String × α)) (k : String) :
    dlookup (ddel d k) k = none := by
  induction d with
  | nil => simp [ddel, dlookup]
  | cons p rest ih =>
    by_cases h : p.1 = k
    · rw [ddel_cons_self h]; exact ih
    · rw [ddel_cons_ne h, dlookup, if_neg h]; exact ih

theorem dlookup_ddel_ne {α : Type} (d : List (String × α)) (k k2 : String)
    (h : k2 ≠ k) : dlookup (ddel d k) k2 = dlookup d k2 := by
  induction d with
  | nil => simp [ddel, dlookup]
  | cons p rest ih =>
    by_cases hp : p.1 = k
    · have hp2 : ¬ p.1 = k2 := by rw [hp]; exact fun hh => h hh.symm
      rw [ddel_cons_self hp, dlookup, if_neg hp2]; exact ih
    · rw [ddel_cons_ne hp, dlookup, dlookup]
      by_cases hp2 : p.1 = k2
      · simp [hp2]
      · simp [hp2, ih]

theorem mem_dset {α : Type} {d : List (String × α)} {k : String} {v : α}
    {p : String × α} (h : p ∈ dset d k v) : p = (k, v) ∨ p ∈ d := by
  induction d with
  | nil => simpa [dset] using h
  | cons q rest ih =>
    by_cases hq : q.1 = k
    · simp only [dset, if_pos hq] at h
      rcases List.mem_cons.mp h with h1 | h1
      · exact Or.inl h1
      · exact Or.inr (List.mem_cons_of_mem _ h1)
    · simp only [dset, if_neg hq] at h
      rcases List.mem_cons.mp h with h1 | h1
      · exact Or.inr (h1 ▸ List.mem_cons_self _ _)
      · rcases ih h1 with h2 | h2
        · exact Or.inl h2
        · exact Or.inr (List.mem_cons_of_mem _ h2)

theorem mem_ddel {α : Type} {d : List (String × α)} {k : String}
    {p : String × α} (h : p ∈ ddel d k) : p ∈ d :=
  List.mem_of_mem_filter h

theorem dlookup_mem {α : Type} {d : List (String × α)} {k : String} {v : α}
    (h : dlookup d k = some v) : (k, v) ∈ d := by
  induction d with
  | nil => simp [dlookup] at h
  | cons p rest ih =>
    by_cases hp : p.1 = k
    · simp only [dlookup, if_pos hp] at h
      cases h
      exact hp ▸ (List.mem_cons_self _ _)
    · simp only [dlookup, if_neg hp] at h
      exact List.mem_cons_of_mem _ (ih h)

theorem dget_nonneg {d : List (String × ℤ)} (h : ∀ p ∈ d, 0 ≤ p.2) (k : String) :
    0 ≤ dget d k := by
  unfold dget
  cases hl : dlookup d k with
  | none => simp
  | some v => simpa using h _ (dlookup_mem hl)

theorem dget_pos_entries {d : List (String × ℤ)} (h : ∀ p ∈ d, 0 < p.2) (k : String) :
    0 ≤ dget d k := by
  unfold dget
  cases hl : dlookup d k with
  | none => simp
  | some v => simpa using le_of_lt (h _ (dlookup_mem hl))

/-! ## Banker state (src/services/banker/state.py)

Wallets are Python floats, embedded as `ℚ`; inventory counts are Python
ints, embedded as `ℤ`.  Error-message strings keep the fixed text of the
source; numeric interpolations (such as the `%.2f` amounts) are omitted
since no property depends on them. -/

/-- Starting wallet for a new account (`STARTING_WALLET = 100.0`). -/
def STARTING_WALLET : ℚ := 100

/-- The economic state of an agent: wallet balance and inventory. -/
structure AgentAccount where
  wallet : ℚ := 0
  inventory : List (String × ℤ) := []
  deriving DecidableEq

/-- Order side, the `msg_type` stored in an order (OFFER or BID). -/
inductive Side where
  | offer
  | bid
  deriving DecidableEq

/-- A live offer or bid in the order book (`OrderEntry`). -/
structure OrderEntry where
  msg_id : String
  from_agent : String
  msg_type : Side
  item : String
  quantity : ℤ
  price_per_unit : ℚ
  tick : ℤ
  expires_tick : Option ℤ := none
  deriving DecidableEq

/-- Result of attempting to settle a trade (`TradeResult`). -/
structure TradeResult where
  errors : List String := []
  buyer : String := ""
  seller : String := ""
  item : String := ""
  quantity : ℤ := 0
  total_price : ℚ := 0
  reference_msg_id : String := ""
  deriving DecidableEq

/-- Accounts and the order book of the Banker (`BankerState`). -/
structure BankerState where
  current_tick : ℤ := 0
  accounts : List (String × AgentAccount) := []
  orders : List (String × OrderEntry) := []
  deriving DecidableEq

/-- `BankerState.advance_tick`. -/
def advanceTick (s : BankerState) (tick : ℤ) : BankerState :=
  { s with current_tick := tick }

/-- `BankerState.create_account`. -/
def createAccount (s : BankerState) (agentId : String) (wallet : ℚ) : BankerState :=
  { s with accounts := dset s.accounts agentId { wallet := wallet, inventory := [] } }

/-- `BankerState.has_account`. -/
def hasAccount (s : BankerState) (agentId : String) : Bool :=
  (dlookup s.accounts agentId).isSome

/-- `BankerState.debit_wallet`: subtract, refusing on missing account or
insufficient funds. -/
def debitWallet (s : BankerState) (agentId : String) (amount : ℚ) :
    Bool × BankerState :=
  match dlookup s.accounts agentId with
  | none => (false, s)
  | some account =>
    if account.wallet < amount then (false, s)
    else
      let account2 := { account with wallet := account.wallet - amount }
      (true, { s with accounts := dset s.accounts agentId account2 })

/-- `BankerState.credit_wallet`. -/
def creditWallet (s : BankerState) (agentId : String) (amount : ℚ) :
    Bool × BankerState :=
  match dlookup s.accounts agentId with
  | none => (false, s)
  | some account =>
    let account2 := { account with wallet := account.wallet + amount }
    (true, { s with accounts := dset s.accounts agentId account2 })

/-- `BankerState.debit_inventory`: remove items, deleting the key when the
count reaches zero. -/
def debitInventory (s : BankerState) (agentId item : String) (quantity : ℤ) :
    Bool × BankerState :=
  match dlookup s.accounts agentId with
  | none => (false, s)
  | some account =>
    let current := dget account.inventory item
    if current < quantity then (false, s)
    else
      let inv := dset account.inventory item (current - quantity)
      let inv2 := if current - quantity = 0 then ddel inv item else inv
      let account2 := { account with inventory := inv2 }
      (true, { s with accounts := dset s.accounts agentId account2 })

/-- `BankerState.credit_inventory`. -/
def creditInventory (s : BankerState) (agentId item : String) (quantity : ℤ) :
    Bool × BankerState :=
  match dlookup s.accounts agentId with
  | none => (false, s)
  | some account =>
    let inv := dset account.inventory item (dget account.inventory item + quantity)
    let account2 := { account with inventory := inv }
    (true, { s with accounts := dset s.accounts agentId account2 })

/-- `BankerState.has_inventory`. -/
def hasInventory (s : BankerState) (agentId item : String) (quantity : ℤ) : Bool :=
  match dlookup s.accounts agentId with
  | none => false
  | some account => decide (dget account.inventory item ≥ quantity)

/-- `BankerState.add_order`. -/
def addOrder (s : BankerState) (order : OrderEntry) : BankerState :=
  { s with orders := dset s.orders order.msg_id order }

/-- `BankerState.reduce_order`: reduce the quantity of an order, removing it if
the quantity reaches zero (the source deletes when `quantity <= 0`). -/
def reduceOrder (s : BankerState) (msgId : String) (quantity : ℤ) : BankerState :=
  match dlookup s.orders msgId with
  | none => s
  | some order =>
    let updated := { order with quantity := order.quantity - quantity }
    if updated.quantity ≤ 0 then { s with orders := ddel s.orders msgId }
    else { s with orders := dset s.orders msgId updated }

/-- `BankerState.purge_expired_orders` (the state after the purge; the
returned list of removed orders is not needed by any claim). -/
def purgeExpiredOrders (s : BankerState) : BankerState :=
  { s with orders := s.orders.filter (fun p =>
      match p.2.expires_tick with
      | none => true
      | some e => decide (¬ e ≤ s.current_tick)) }

/-! ## Banker rules (src/services/banker/rules.py)

Each `process_*` function takes the payload fields the source reads from
the envelope (via `payload.get(...)`) and the state, and returns the error
list (or `TradeResult`) together with the successor state. -/

/-- `process_join`: create the account with the starting wallet unless it
already exists (`agent_id` defaults to the envelope sender). -/
def processJoin (fromAgent : String) (payloadAgentId : Option String)
    (s : BankerState) : List String × BankerState :=
  let agentId := payloadAgentId.getD fromAgent
  if hasAccount s agentId then ([], s)
  else ([], createAccount s agentId STARTING_WALLET)

/-- `process_offer`: validate seller account and inventory, then add the
order to the book. -/
def processOffer (fromAgent msgId item : String) (quantity : ℤ)
    (pricePerUnit : ℚ) (expiresTick : Option ℤ) (s : BankerState) :
    List String × BankerState :=
  if !(hasAccount s fromAgent) then
    (["No account for agent " ++ fromAgent], s)
  else if !(hasInventory s fromAgent item quantity) then
    (["Agent " ++ fromAgent ++ " has insufficient inventory: needs " ++ item], s)
  else
    ([], addOrder s
      { msg_id := msgId, from_agent := fromAgent, msg_type := Side.offer,
        item := item, quantity := quantity, price_per_unit := pricePerUnit,
        tick := s.current_tick, expires_tick := expiresTick })

/-- Mirrors `account is not None and account.wallet < total_cost` in
`process_bid` and `process_accept`. -/
def walletBelow (s : BankerState) (agentId : String) (amount : ℚ) : Bool :=
  match dlookup s.accounts agentId with
  | none => false
  | some account => decide (account.wallet < amount)

/-- `process_bid`: validate buyer account and funds against
`quantity * max_price_per_unit`, then add the order to the book. -/
def processBid (fromAgent msgId item : String) (quantity : ℤ)
    (maxPricePerUnit : ℚ) (s : BankerState) : List String × BankerState :=
  let totalCost := quantity * maxPricePerUnit
  if !(hasAccount s fromAgent) then
    (["No account for agent " ++ fromAgent], s)
  else if walletBelow s fromAgent totalCost then
    (["Agent " ++ fromAgent ++ " has insufficient funds"], s)
  else
    ([], addOrder s
      { msg_id := msgId, from_agent := fromAgent, msg_type := Side.bid,
        item := item, quantity := quantity, price_per_unit := maxPricePerUnit,
        tick := s.current_tick, expires_tick := none })

/-- `process_accept`: settle a trade against the referenced order if the
economics check out, supporting partial fills. -/
def processAccept (accepter refId : String) (acceptQty : ℤ) (s : BankerState) :
    TradeResult × BankerState :=
  match dlookup s.orders refId with
  | none =>
    ({ errors := ["Referenced order " ++ refId ++ " not found in book"] }, s)
  | some order =>
    let buyer := if order.msg_type = Side.offer then accepter else order.from_agent
    let seller := if order.msg_type = Side.offer then order.from_agent else accepter
    if buyer = seller then ({ errors := ["Self-trade not allowed"] }, s)
    else
      let tradeQty := min acceptQty order.quantity
      let totalPrice := tradeQty * order.price_per_unit
      let item := order.item
      if !(hasAccount s buyer) then
        ({ errors := ["Buyer " ++ buyer ++ " has no account"] }, s)
      else if !(hasAccount s seller) then
        ({ errors := ["Seller " ++ seller ++ " has no account"] }, s)
      else if walletBelow s buyer totalPrice then
        ({ errors := ["Buyer " ++ buyer ++ " has insufficient funds"] }, s)
      else if !(hasInventory s seller item tradeQty) then
        ({ errors := ["Seller " ++ seller ++ " has insufficient inventory"] }, s)
      else
        let s1 := (debitWallet s buyer totalPrice).2
        let s2 := (creditWallet s1 seller totalPrice).2
        let s3 := (debitInventory s2 seller item tradeQty).2
        let s4 := (creditInventory s3 buyer item tradeQty).2
        let s5 := reduceOrder s4 refId tradeQty
        ({ errors := [], buyer := buyer, seller := seller, item := item,
           quantity := tradeQty, total_price := totalPrice,
           reference_msg_id := refId }, s5)

/-- The Banker publishes a Settlement for an ACCEPT exactly when
`process_accept` returned no errors (src/services/banker/banker.py). -/
def acceptPublishesSettlement (accepter refId : String) (acceptQty : ℤ)
    (s : BankerState) : Bool :=
  (processAccept accepter refId acceptQty s).1.errors.isEmpty

/-- `process_craft_start`: verify all inputs against the current state,
then debit each input from the inventory. -/
def processCraftStart (fromAgent : String) (inputs : List (String × ℤ))
    (s : BankerState) : List String × BankerState :=
  if !(hasAccount s fromAgent) then
    (["No account for agent " ++ fromAgent], s)
  else
    let errors := (inputs.filter
        (fun p => !(hasInventory s fromAgent p.1 p.2))).map
      (fun p => "Agent " ++ fromAgent ++ " has insufficient " ++ p.1)
    if errors = [] then
      ([], inputs.foldl (fun st p => (debitInventory st fromAgent p.1 p.2).2) s)
    else (errors, s)

/-- `process_gather_result`: credit gathered items, auto-creating the
account if needed; rejects empty agent id or non-positive quantity. -/
def processGatherResult (payloadAgentId item : String) (quantity : ℤ)
    (s : BankerState) : List String × BankerState :=
  if payloadAgentId = "" then (["Missing agent_id in GATHER_RESULT"], s)
  else if quantity ≤ 0 then (["Invalid quantity in GATHER_RESULT"], s)
  else
    let s1 :=
      if hasAccount s payloadAgentId then s
      else createAccount s payloadAgentId STARTING_WALLET
    ([], (creditInventory s1 payloadAgentId item quantity).2)

/-- `process_craft_complete`: credit every output item to the inventory. -/
def processCraftComplete (fromAgent : String) (output : List (String × ℤ))
    (s : BankerState) : List String × BankerState :=
  if !(hasAccount s fromAgent) then
    (["No account for agent " ++ fromAgent], s)
  else
    ([], output.foldl (fun st p => (creditInventory st fromAgent p.1 p.2).2) s)

/-! ## Banker dispatch (src/services/banker/banker.py)

One constructor per message kind the Banker handles, carrying the payload
fields its handler reads.  `_on_world_message` forwards a GATHER_RESULT to
`process_gather_result` only when `success` is truthy; `_on_tick` advances
the tick and purges expired orders. -/

/-- A message as seen by the handlers of the Banker. -/
inductive BMsg where
  | join (fromAgent : String) (payloadAgentId : Option String)
  | offer (fromAgent msgId item : String) (quantity : ℤ) (pricePerUnit : ℚ)
      (expiresTick : Option ℤ)
  | bid (fromAgent msgId item : String) (quantity : ℤ) (maxPricePerUnit : ℚ)
  | accept (fromAgent referenceMsgId : String) (quantity : ℤ)
  | craftStart (fromAgent : String) (inputs : List (String × ℤ))
  | craftComplete (fromAgent : String) (output : List (String × ℤ))
  | gatherResult (agentId item : String) (quantity : ℤ) (success : Bool)
  | tick (tickNumber : ℤ)
  deriving DecidableEq

/-- One Banker handler invocation (the error lists are only logged). -/
def bankerStep (s : BankerState) (m : BMsg) : BankerState :=
  match m with
  | .join f pid => (processJoin f pid s).2
  | .offer f mid item q p e => (processOffer f mid item q p e s).2
  | .bid f mid item q p => (processBid f mid item q p s).2
  | .accept f r q => (processAccept f r q s).2
  | .craftStart f ins => (processCraftStart f ins s).2
  | .craftComplete f outs => (processCraftComplete f outs s).2
  | .gatherResult a item q succ =>
    if succ then (processGatherResult a item q s).2 else s
  | .tick t => purgeExpiredOrders (advanceTick s t)

/-- Run the Banker from its empty start state over a message sequence. -/
def runBanker (ms : List BMsg) : BankerState :=
  ms.foldl bankerStep {}

/-- The wallet visible for an agent (0 when no account exists). -/
def walletOf (s : BankerState) (agentId : String) : ℚ :=
  match dlookup s.accounts agentId with
  | none => 0
  | some account => account.wallet

/-- The inventory count visible for an agent (0 when absent). -/
def invCount (s : BankerState) (agentId item : String) : ℤ :=
  match dlookup s.accounts agentId with
  | none => 0
  | some account => dget account.inventory item

/-- The stored inventory entry for an agent and item, `none` when the key
is absent (distinguishes a stored zero from an absent key). -/
def invEntry (s : BankerState) (agentId item : String) : Option ℤ :=
  match dlookup s.accounts agentId with
  | none => none
  | some account => dlookup account.inventory item

/-- The remaining quantity of a book order, `none` when not in the book. -/
def orderQty (s : BankerState) (msgId : String) : Option ℤ :=
  (dlookup s.orders msgId).map OrderEntry.quantity

/-- Payload well-formedness according to the per-kind schemas of
src/libs/streetmarket/models/messages.py: offers, bids and accepts carry
positive quantities and positive prices, and every craft-complete output
count is positive (the Banker itself never checks these; the convention of spec §6 is that all numeric quantities are positive). -/
def schemaValid : BMsg → Bool
  | .offer _ _ _ q p _ => decide (0 < q) && decide (0 < p)
  | .bid _ _ _ q p => decide (0 < q) && decide (0 < p)
  | .accept _ _ q => decide (0 < q)
  | .craftComplete _ outs => outs.all (fun pr => decide (0 < pr.2))
  | _ => true

/-! ## World Engine (src/services/world/state.py, rules.py)

Only the gather path mutates the spawn pool; tick creation
(`create_spawn`) replaces the pool with a fresh copy of the spawn table
under a freshly generated id. -/

/-- A pool of resources available for one tick (`SpawnPool`). -/
structure SpawnPool where
  spawn_id : String
  tick : ℤ
  remaining : List (String × ℤ) := []
  deriving DecidableEq

/-- Tick counter plus at most one active spawn pool (`WorldState`). -/
structure WorldState where
  current_tick : ℤ := 0
  active_spawn : Option SpawnPool := none
  deriving DecidableEq

/-- `WorldState.try_gather`: FCFS claim against the active pool with
partial grants.  Returns `(granted, error?)` and the successor state. -/
def tryGather (s : WorldState) (spawnId item : String) (quantity : ℤ) :
    (ℤ × Option String) × WorldState :=
  match s.active_spawn with
  | none => ((0, some "No active spawn"), s)
  | some pool =>
    if pool.spawn_id ≠ spawnId then ((0, some "Spawn expired or not found"), s)
    else
      let available := dget pool.remaining item
      if available = 0 then
        ((0, some ("No " ++ item ++ " remaining in spawn")), s)
      else
        let granted := min quantity available
        let pool2 := { pool with remaining := dset pool.remaining item (available - granted) }
        ((granted, none), { s with active_spawn := some pool2 })

/-- `process_gather`: validate the request fields, then execute the FCFS
gather.  Returns `(granted, success, reason)` and the successor state. -/
def processGather (spawnId item : String) (quantity : ℤ) (s : WorldState) :
    (ℤ × Bool × Option String) × WorldState :=
  if spawnId = "" then ((0, false, some "Missing spawn_id"), s)
  else if item = "" then ((0, false, some "Missing item"), s)
  else if quantity ≤ 0 then ((0, false, some "Quantity must be positive"), s)
  else
    match tryGather s spawnId item quantity with
    | ((_, some err), s2) => ((0, false, some err), s2)
    | ((granted, none), s2) =>
      let reason :=
        if granted < quantity then
          some ("Partial: only " ++ toString granted ++ " remaining")
        else none
      ((granted, true, reason), s2)

/-- A gather request as read from the envelope payload. -/
structure GatherRequest where
  spawnId : String
  item : String
  quantity : ℤ
  deriving DecidableEq

/-- The observable content of one GatherResult message published by the
World Engine: the spawn id and item echoed from the request, the granted
quantity, and the success flag. -/
structure GatherOutcome where
  spawnId : String
  item : String
  granted : ℤ
  success : Bool
  deriving DecidableEq

/-- Process a sequence of gather requests in arrival order, collecting the
GatherResult contents. -/
def runGathers : List GatherRequest → WorldState → List GatherOutcome × WorldState
  | [], s => ([], s)
  | r :: rest, s =>
    let out := processGather r.spawnId r.item r.quantity s
    let tail := runGathers rest out.2
    (⟨r.spawnId, r.item, out.1.1, out.1.2.1⟩ :: tail.1, tail.2)

/-- Total granted quantity over the successful GatherResults against a
given spawn id and item. -/
def grantedTotal : List GatherOutcome → String → String → ℤ
  | [], _, _ => 0
  | o :: os, spawnId, item =>
    (if o.success = true ∧ o.spawnId = spawnId ∧ o.item = item then o.granted
     else 0) + grantedTotal os spawnId item

/-! ## Catalogue (src/libs/streetmarket/models/catalogue.py) -/

/-- An item that can be traded on the market (`CatalogueItem`). -/
structure CatalogueItem where
  name : String
  category : String
  base_price : ℚ
  craftable : Bool := false
  deriving DecidableEq

/-- A crafting recipe (`Recipe`). -/
structure Recipe where
  name : String
  inputs : List (String × ℤ)
  output : String
  output_quantity : ℤ := 1
  ticks : ℤ
  deriving DecidableEq

/-- The item catalogue (`ITEMS`). -/
def ITEMS : List (String × CatalogueItem) :=
  [ ("potato", ⟨"potato", "raw", 2, false⟩)
  , ("onion", ⟨"onion", "raw", 2, false⟩)
  , ("wood", ⟨"wood", "raw", 3, false⟩)
  , ("nails", ⟨"nails", "raw", 1, false⟩)
  , ("stone", ⟨"stone", "raw", 4, false⟩)
  , ("soup", ⟨"soup", "food", 8, true⟩)
  , ("shelf", ⟨"shelf", "material", 10, true⟩)
  , ("wall", ⟨"wall", "material", 15, true⟩)
  , ("furniture", ⟨"furniture", "housing", 30, true⟩)
  , ("house", ⟨"house", "housing", 100, true⟩) ]

/-- The recipe catalogue (`RECIPES`). -/
def RECIPES : List (String × Recipe) :=
  [ ("soup", ⟨"soup", [("potato", 2), ("onion", 1)], "soup", 1, 2⟩)
  , ("shelf", ⟨"shelf", [("wood", 3), ("nails", 2)], "shelf", 1, 3⟩)
  , ("wall", ⟨"wall", [("stone", 4), ("wood", 2)], "wall", 1, 4⟩)
  , ("furniture", ⟨"furniture", [("wood", 5), ("nails", 4)], "furniture", 1, 5⟩)
  , ("house", ⟨"house", [("wall", 4), ("shelf", 2), ("furniture", 3)], "house", 1, 10⟩) ]

/-- `is_valid_item`. -/
def isValidItem (name : String) : Bool := (dlookup ITEMS name).isSome

/-- `is_valid_recipe`. -/
def isValidRecipe (name : String) : Bool := (dlookup RECIPES name).isSome

/-! ## Governor (src/services/governor/state.py, rules.py) -/

/-- `MAX_ACTIONS_PER_TICK = 5`. -/
def MAX_ACTIONS_PER_TICK : ℤ := 5

/-- `HEARTBEAT_TIMEOUT_TICKS = 10`. -/
def HEARTBEAT_TIMEOUT_TICKS : ℤ := 10

/-- An in-progress crafting operation tracked by the Governor. -/
structure ActiveCraft where
  recipe : String
  started_tick : ℤ
  estimated_ticks : ℤ
  deriving DecidableEq

/-- Per-tick actions, heartbeats and active crafts (`GovernorState`). -/
structure GovernorState where
  current_tick : ℤ := 0
  actions_this_tick : List (String × ℤ) := []
  last_heartbeat_tick : List (String × ℤ) := []
  active_crafts : List (String × ActiveCraft) := []
  known_agents : List String := []
  deriving DecidableEq

/-- `GovernorState.is_rate_limited`. -/
def isRateLimited (g : GovernorState) (agentId : String) : Bool :=
  decide (dget g.actions_this_tick agentId ≥ MAX_ACTIONS_PER_TICK)

/-- `GovernorState.is_inactive`: false for agents that never sent a
heartbeat. -/
def isInactive (g : GovernorState) (agentId : String) : Bool :=
  match dlookup g.last_heartbeat_tick agentId with
  | none => false
  | some t => decide (g.current_tick - t > HEARTBEAT_TIMEOUT_TICKS)

/-- `GovernorState.is_crafting`. -/
def isCrafting (g : GovernorState) (agentId : String) : Bool :=
  (dlookup g.active_crafts agentId).isSome

/-- `GovernorState.start_craft`. -/
def startCraft (g : GovernorState) (agentId recipe : String)
    (estimatedTicks : ℤ) : GovernorState :=
  let craft : ActiveCraft := ⟨recipe, g.current_tick, estimatedTicks⟩
  { g with active_crafts := dset g.active_crafts agentId craft }

/-- `GovernorState.complete_craft` (the successor state; the popped craft
is unused by the rules). -/
def completeCraft (g : GovernorState) (agentId : String) : GovernorState :=
  { g with active_crafts := ddel g.active_crafts agentId }

/-- `GovernorState.register_agent`. -/
def registerAgent (g : GovernorState) (agentId : String) : GovernorState :=
  if agentId ∈ g.known_agents then g
  else { g with known_agents := agentId :: g.known_agents }

/-- `GovernorState.record_heartbeat`. -/
def recordHeartbeat (g : GovernorState) (agentId : String) : GovernorState :=
  { g with last_heartbeat_tick := dset g.last_heartbeat_tick agentId g.current_tick }

/-- Python dict equality on the `inputs` mapping (`provided != recipe.inputs`). -/
def dictEq (a b : List (String × ℤ)) : Bool :=
  a.all (fun p => dlookup b p.1 == some p.2) &&
  b.all (fun p => dlookup a p.1 == some p.2)

/-- `_validate_craft_start`: recipe exists, inputs and estimated ticks
match the recipe, and the agent has no active craft; on success the craft
is recorded. -/
def validateCraftStart (fromAgent recipeName : String)
    (inputs : List (String × ℤ)) (estimated : ℤ) (g : GovernorState) :
    List String × GovernorState :=
  match dlookup RECIPES recipeName with
  | none => (["Unknown recipe: " ++ recipeName], g)
  | some recipe =>
    let e1 :=
      if dictEq inputs recipe.inputs then []
      else ["Inputs mismatch for recipe " ++ recipeName]
    let e2 :=
      if estimated = recipe.ticks then []
      else ["Estimated ticks mismatch for " ++ recipeName]
    let e3 :=
      if isCrafting g fromAgent then
        ["Agent " ++ fromAgent ++ " is already crafting"]
      else []
    let errors := e1 ++ e2 ++ e3
    if errors = [] then ([], startCraft g fromAgent recipeName recipe.ticks)
    else (errors, g)

/-- `_validate_craft_complete`. -/
def validateCraftComplete (fromAgent : String) (g : GovernorState) :
    List String × GovernorState :=
  if isCrafting g fromAgent then ([], completeCraft g fromAgent)
  else (["Agent " ++ fromAgent ++ " has no active craft to complete"], g)

/-- A market message as dispatched by `validate_business_rules`, carrying
the payload fields each per-kind rule reads; `other` stands for the kinds
with no per-kind branch (tick, settlement, ...). -/
inductive GMsg where
  | offer (fromAgent item : String)
  | bid (fromAgent item : String)
  | accept (fromAgent referenceMsgId : String)
  | counter (fromAgent referenceMsgId : String)
  | craftStart (fromAgent recipeName : String) (inputs : List (String × ℤ))
      (estimatedTicks : ℤ)
  | craftComplete (fromAgent : String)
  | join (fromAgent : String) (payloadAgentId : Option String)
  | heartbeat (fromAgent : String)
  | other (fromAgent : String)
  deriving DecidableEq

/-- The sender of a Governor message (`envelope.from_agent`). -/
def gmsgFrom : GMsg → String
  | .offer f _ => f
  | .bid f _ => f
  | .accept f _ => f
  | .counter f _ => f
  | .craftStart f _ _ _ => f
  | .craftComplete f => f
  | .join f _ => f
  | .heartbeat f => f
  | .other f => f

/-- `validate_business_rules`: rate limit short-circuit, inactivity
warning, then the per-kind rules.  Returns the error list and the
successor state. -/
def validateBusinessRules (m : GMsg) (g : GovernorState) :
    List String × GovernorState :=
  let agentId := gmsgFrom m
  if isRateLimited g agentId then
    (["Rate limited: " ++ agentId ++ " exceeded max actions this tick"], g)
  else
    let inactiveErrs :=
      if isInactive g agentId then
        ["Agent " ++ agentId ++ " is inactive (no heartbeat)"]
      else []
    match m with
    | .offer _ item =>
      (inactiveErrs ++ (if isValidItem item then [] else ["Unknown item: " ++ item]), g)
    | .bid _ item =>
      (inactiveErrs ++ (if isValidItem item then [] else ["Unknown item: " ++ item]), g)
    | .accept _ ref =>
      (inactiveErrs ++ (if ref = "" then ["Accept missing reference_msg_id"] else []), g)
    | .counter _ ref =>
      (inactiveErrs ++ (if ref = "" then ["Counter missing reference_msg_id"] else []), g)
    | .craftStart f recipeName ins est =>
      let out := validateCraftStart f recipeName ins est g
      (inactiveErrs ++ out.1, out.2)
    | .craftComplete f =>
      let out := validateCraftComplete f g
      (inactiveErrs ++ out.1, out.2)
    | .join f pid => (inactiveErrs, registerAgent g (pid.getD f))
    | .heartbeat f => (inactiveErrs, recordHeartbeat g f)
    | .other _ => (inactiveErrs, g)

/-! ## Agent runtime mirror (src/libs/streetmarket/agent/state.py, base.py) -/

/-- An offer or bid this agent published, awaiting responses. -/
structure PendingOffer where
  msg_id : String
  item : String
  quantity : ℤ
  price_per_unit : ℚ
  tick : ℤ
  is_sell : Bool
  deriving DecidableEq

/-- Optimistic local mirror of the agent state held at the Banker
(`AgentState`; the fields read or written by the handlers modelled
here). -/
structure AgentMirror where
  agent_id : String
  joined : Bool := false
  wallet : ℚ := 0
  inventory : List (String × ℤ) := []
  pending_offers : List (String × PendingOffer) := []
  deriving DecidableEq

/-- `AgentState.add_inventory` (no zero-key removal on credit). -/
def agentAddInventory (inv : List (String × ℤ)) (item : String) (q : ℤ) :
    List (String × ℤ) :=
  dset inv item (dget inv item + q)

/-- `AgentState.remove_inventory`: guarded removal that deletes the key at
zero (the returned Bool is ignored by the settlement handler). -/
def agentRemoveInventory (inv : List (String × ℤ)) (item : String) (q : ℤ) :
    List (String × ℤ) :=
  let current := dget inv item
  if current < q then inv
  else
    let inv2 := dset inv item (current - q)
    if current - q = 0 then ddel inv2 item else inv2

/-- The JOIN branch of `TradingAgent._execute_action`: optimistically mark
joined and set the local wallet to the starting funds. -/
def executeJoinAction (st : AgentMirror) : AgentMirror :=
  { st with joined := true, wallet := 100 }

/-- A Settlement payload (`Settlement`), as validated by the handler. -/
structure SettlementMsg where
  reference_msg_id : String
  buyer : String
  seller : String
  item : String
  quantity : ℤ
  total_price : ℚ
  status : String := "completed"
  deriving DecidableEq

/-- The SETTLEMENT branch of `TradingAgent._on_market`: skip own messages;
as buyer, debit the wallet by `total_price` with no funds check and credit
inventory; as seller, credit the wallet and debit inventory; drop the
pending offer either way. -/
def onMarketSettlement (selfId fromAgent : String) (p : SettlementMsg)
    (st : AgentMirror) : AgentMirror :=
  if fromAgent = selfId then st
  else if p.buyer = selfId then
    { st with wallet := st.wallet - p.total_price,
              inventory := agentAddInventory st.inventory p.item p.quantity,
              pending_offers := ddel st.pending_offers p.reference_msg_id }
  else if p.seller = selfId then
    { st with wallet := st.wallet + p.total_price,
              inventory := agentRemoveInventory st.inventory p.item p.quantity,
              pending_offers := ddel st.pending_offers p.reference_msg_id }
  else st

/-! ## Message kinds and structural validation
(src/libs/streetmarket/models/messages.py,
src/libs/streetmarket/helpers/validation.py) -/

/-- The values of the `MessageType` enumeration as defined in
models/messages.py. -/
def messageTypeValues : List String :=
  [ "offer", "bid", "accept", "counter", "craft_start", "craft_complete"
  , "join", "heartbeat", "tick", "settlement", "validation_result" ]

/-- The message types with a payload model registered in
`PAYLOAD_REGISTRY`. -/
def payloadRegistryTypes : List String :=
  [ "offer", "bid", "accept", "counter", "craft_start", "craft_complete"
  , "join", "heartbeat", "tick", "settlement", "validation_result" ]

/-- Modelled from the spec: the message kinds of the §6 kinds-and-payloads
table, in table order.  The table additionally lists `spawn`, `gather`
and `gather_result`, which models/messages.py does not define. -/
def specSection6Kinds : List String :=
  [ "offer", "bid", "accept", "counter", "craft_start", "craft_complete"
  , "join", "heartbeat", "tick", "spawn", "gather", "gather_result"
  , "settlement", "validation_result" ]

/-- Emptiness test of `not s or not s.strip()`: the string is empty or
holds only whitespace, exactly when every character is whitespace. -/
def blankString (s : String) : Bool :=
  s.toList.all Char.isWhitespace

/-- `validate_message`: non-empty `from` and `topic`, known message type,
then payload-schema validation (the per-field pydantic validation inside a
registered schema is abstracted; the claims settled here depend only on
the unknown-type and missing-schema paths). -/
def validateMessage (fromAgent topic msgType : String) : List String :=
  let e1 := if blankString fromAgent then ["The from field must not be empty"] else []
  let e2 := if blankString topic then ["The topic field must not be empty"] else []
  let errs := e1 ++ e2
  if !(messageTypeValues.contains msgType) then
    errs ++ ["Unknown message type: " ++ msgType]
  else if !(payloadRegistryTypes.contains msgType) then
    errs ++ ["No payload schema registered for type: " ++ msgType]
  else errs

/-! ## Theorems settling the claims -/

/-- Claim C5: the §6 table of message kinds requires spawn, gather and
gather_result to be members of the message-kind enumeration with payload
schemas registered.  The `MessageType` of the program and `PAYLOAD_REGISTRY`
omit exactly these three kinds, so `validate_message` rejects such
envelopes as unknown types, while the listed kinds that are present (for
example offer) validate; the rest of the repository (world.py, banker.py,
agent/base.py, streetmarket/__init__.py and the tests) references the
missing members. -/
theorem c5_gather_kinds_missing :
    specSection6Kinds.filter (fun k => !(messageTypeValues.contains k)) =
      ["spawn", "gather", "gather_result"] ∧
    specSection6Kinds.filter (fun k => !(payloadRegistryTypes.contains k)) =
      ["spawn", "gather", "gather_result"] ∧
    validateMessage "world" "/world/nature" "spawn" =
      ["Unknown message type: spawn"] ∧
    validateMessage "world" "/world/nature" "gather" =
      ["Unknown message type: gather"] ∧
    validateMessage "world" "/world/nature" "gather_result" =
      ["Unknown message type: gather_result"] ∧
    validateMessage "farmer-01" "/market/raw-goods" "offer" = [] := by
  decide

/-- Message sequence driving a Banker wallet negative: the seller gathers
one unit, a buyer joins, the seller posts an offer with a negative price
(no payload validation happens in the Banker), and the buyer accepts; the
settlement credits the negative total to the seller. -/
def c3CexMsgs : List BMsg :=
  [ BMsg.gatherResult "a" "x" 1 true
  , BMsg.join "b" none
  , BMsg.offer "a" "o1" "x" 1 (-200) none
  , BMsg.accept "b" "o1" 1 ]

/-- Claim C3 counterexample: after the JOIN/OFFER/ACCEPT/GATHER_RESULT
sequence `c3CexMsgs` (an offer with price_per_unit −200 accepted for one
unit), the wallet of the seller at the Banker is −100 < 0, refuting that no
wallet of any account is ever negative over arbitrary processed messages. -/
theorem c3_wallet_negative_cex :
    walletOf (runBanker c3CexMsgs) "a" = -100 ∧
    walletOf (runBanker c3CexMsgs) "a" < 0 := by
  have h : walletOf (runBanker c3CexMsgs) "a" = -100 := by
    simp [c3CexMsgs, runBanker, List.foldl, bankerStep, processJoin,
      processOffer, processAccept, processGatherResult, createAccount,
      hasAccount, hasInventory, walletBelow, debitWallet, creditWallet,
      debitInventory, creditInventory, addOrder, reduceOrder, walletOf,
      dlookup, dset, ddel, dget, STARTING_WALLET, Option.getD, min_def,
      (by norm_num : ¬ ((100 : ℚ) < -200))]
    all_goals norm_num
  exact ⟨h, by rw [h]; norm_num⟩

/-- Message sequence creating a zero-count inventory key: a joined agent
sends CRAFT_COMPLETE whose output map carries a zero count; the Banker
credits it without a positivity check and stores the key with count 0. -/
def c4CexMsgs : List BMsg :=
  [ BMsg.join "a" none
  , BMsg.craftComplete "a" [("x", 0)] ]

/-- Claim C4 counterexample: after `c4CexMsgs`, the inventory of the agent maps
the key "x" to the stored count 0 — an inventory entry with count ≤ 0 —
refuting that no credit introduces a key with count ≤ 0 for an arbitrary
CRAFT_COMPLETE output mapping. -/
theorem c4_zero_inventory_entry_cex :
    invEntry (runBanker c4CexMsgs) "a" "x" = some 0 := by
  decide

/-- Message sequence creating a zero-quantity order: `process_offer` never
checks that the offered quantity is positive, and `has_inventory` accepts
a request for 0 units, so an offer of 0 units enters the book. -/
def c9CexMsgs : List BMsg :=
  [ BMsg.join "a" none
  , BMsg.offer "a" "o1" "x" 0 1 none ]

/-- Claim C9 counterexample: after `c9CexMsgs`, the order book holds the
entry "o1" with remaining quantity 0, refuting that every book entry has
remaining quantity > 0 at all times. -/
theorem c9_zero_quantity_order_cex :
    orderQty (runBanker c9CexMsgs) "o1" = some 0 := by
  decide

/-- Banker-side messages mirroring the trade observed in the C10 mirror
sequence: the seller owns one unit of "x", the agent "me" has joined with
the starting wallet of 100, and the offer by the seller of one unit at price
200 sits in the book. -/
def c10BankerMsgs : List BMsg :=
  [ BMsg.gatherResult "s" "x" 1 true
  , BMsg.join "me" none
  , BMsg.offer "s" "o1" "x" 1 200 none ]

/-- The same settlement as the agent mirror observes below, as the Banker
would have to publish it: "me" buys one "x" for a total price of 200. -/
def c10Settlement : SettlementMsg :=
  { reference_msg_id := "o1", buyer := "me", seller := "s", item := "x",
    quantity := 1, total_price := 200, status := "completed" }

/-- The Banker state reached by `c10BankerMsgs`. -/
def c10BankerState : BankerState :=
  { current_tick := 0,
    accounts := [("s", { wallet := 100, inventory := [("x", 1)] }),
                 ("me", { wallet := 100, inventory := [] })],
    orders := [("o1", { msg_id := "o1", from_agent := "s",
                        msg_type := Side.offer, item := "x", quantity := 1,
                        price_per_unit := 200, tick := 0,
                        expires_tick := none })] }

/-- Claim C10: the local mirror of the agent runtime applies a buyer-side
Settlement debit with no funds check, so observing a Settlement for a
200-priced purchase right after joining (local wallet 100) drives the
mirror wallet to −100 < 0; the Banker, processing the very same trade,
rejects the ACCEPT for insufficient funds, leaves the authoritative wallet of the buyer at 100 ≥ 0, and publishes no Settlement. -/
theorem c10_mirror_wallet_negative :
    (onMarketSettlement "me" "banker" c10Settlement
        (executeJoinAction { agent_id := "me" })).wallet = -100 ∧
    (onMarketSettlement "me" "banker" c10Settlement
        (executeJoinAction { agent_id := "me" })).wallet < 0 ∧
    (processAccept "me" "o1" 1 (runBanker c10BankerMsgs)).1.errors ≠ [] ∧
    acceptPublishesSettlement "me" "o1" 1 (runBanker c10BankerMsgs) = false ∧
    walletOf (runBanker (c10BankerMsgs ++ [BMsg.accept "me" "o1" 1])) "me" = 100 := by
  have hmirror : (onMarketSettlement "me" "banker" c10Settlement
      (executeJoinAction { agent_id := "me" })).wallet = -100 := by
    simp [c10Settlement, onMarketSettlement, executeJoinAction,
      agentAddInventory, agentRemoveInventory, dlookup, dset, ddel, dget,
      Option.getD]
    all_goals norm_num
  have hrun : runBanker c10BankerMsgs = c10BankerState := by
    simp [c10BankerMsgs, c10BankerState, runBanker, List.foldl, bankerStep,
      processJoin, processOffer, processGatherResult, createAccount,
      hasAccount, hasInventory, walletBelow, creditInventory, addOrder,
      dlookup, dset, dget, STARTING_WALLET, Option.getD]
  have haccerr : (processAccept "me" "o1" 1 c10BankerState).1.errors ≠ [] := by
    simp [c10BankerState, processAccept, hasAccount, hasInventory,
      walletBelow, dlookup, dget, Option.getD, min_def,
      (by norm_num : ((100 : ℚ) < 200))]
  have haccst : (processAccept "me" "o1" 1 c10BankerState).2 = c10BankerState := by
    simp [c10BankerState, processAccept, hasAccount, hasInventory,
      walletBelow, dlookup, dget, Option.getD, min_def,
      (by norm_num : ((100 : ℚ) < 200))]
  have happ : runBanker (c10BankerMsgs ++ [BMsg.accept "me" "o1" 1]) =
      bankerStep (runBanker c10BankerMsgs) (BMsg.accept "me" "o1" 1) := by
    simp [runBanker, List.foldl_append, List.foldl]
  refine ⟨hmirror, ?_, ?_, ?_, ?_⟩
  · rw [hmirror]; norm_num
  · rw [hrun]; exact haccerr
  · simp only [acceptPublishesSettlement, hrun]
    simpa using haccerr
  · rw [happ, hrun]
    show walletOf (processAccept "me" "o1" 1 c10BankerState).2 "me" = 100
    rw [haccst]
    simp [c10BankerState, walletOf, dlookup]

/-- Claim C8 counterexample: a CRAFT_START naming an unknown recipe, sent
to a fresh Governor by an agent with no active craft, is rejected — so the
Governor does not reject a CRAFT_START if and only if an active craft
exists. -/
theorem c8_reject_without_active_craft_cex :
    (validateBusinessRules (GMsg.craftStart "a" "nope" [] 2)
        ({} : GovernorState)).1 ≠ [] ∧
    isCrafting ({} : GovernorState) "a" = false := by
  decide

/-- Claim C8 (amended): a CRAFT_START that passes every other check — the
sender is neither rate limited nor inactive, the recipe exists, the
provided inputs equal those of the recipe, and the estimated ticks equal
those of the recipe — is rejected by the Governor if and only if an active craft
exists for the sending agent. -/
theorem c8_craft_start_reject_iff (g : GovernorState)
    (agent recipeName : String) (inputs : List (String × ℤ)) (est : ℤ)
    (recipe : Recipe)
    (hrl : isRateLimited g agent = false)
    (hin : isInactive g agent = false)
    (hrec : dlookup RECIPES recipeName = some recipe)
    (hinp : dictEq inputs recipe.inputs = true)
    (hest : est = recipe.ticks) :
    ((validateBusinessRules (GMsg.craftStart agent recipeName inputs est) g).1 ≠ []
      ↔ isCrafting g agent = true) := by
  simp only [validateBusinessRules, gmsgFrom, hrl, Bool.false_eq_true,
    if_false, hin, validateCraftStart, hrec, hinp, if_true, hest]
  by_cases hc : isCrafting g agent
  · simp [hc]
  · simp [hc]

/-- Claim C8 witness: the soup recipe with matching inputs and ticks on a
fresh Governor; the amended theorem applies and both sides of the
equivalence are false. -/
theorem c8_craft_start_reject_iff_witness :
    isRateLimited ({} : GovernorState) "a" = false ∧
    isInactive ({} : GovernorState) "a" = false ∧
    dlookup RECIPES "soup" =
      some ⟨"soup", [("potato", 2), ("onion", 1)], "soup", 1, 2⟩ ∧
    dictEq [("potato", 2), ("onion", 1)]
      (Recipe.inputs ⟨"soup", [("potato", 2), ("onion", 1)], "soup", 1, 2⟩) = true ∧
    ((validateBusinessRules
        (GMsg.craftStart "a" "soup" [("potato", 2), ("onion", 1)] 2)
        ({} : GovernorState)).1 ≠ []
      ↔ isCrafting ({} : GovernorState) "a" = true) :=
  ⟨by decide, by decide, by decide, by decide,
    c8_craft_start_reject_iff ({} : GovernorState) "a" "soup"
      [("potato", 2), ("onion", 1)] 2
      ⟨"soup", [("potato", 2), ("onion", 1)], "soup", 1, 2⟩
      (by decide) (by decide) (by decide) (by decide) rfl⟩

/-- Claim C6: a Gather request with non-empty spawn id and item and
positive quantity against the active pool with the matching spawn id is
rejected with granted 0 and the fixed no-stock reason when the remaining
count for the item is zero (in particular when the item is absent);
otherwise it grants `min(requested, available)`, decrements the remaining pool count by exactly the granted amount, succeeds, and reports the
partial-fill reason exactly when the grant fell short of the request. -/
theorem c6_gather_semantics (spawnId item : String) (q : ℤ) (s : WorldState)
    (pool : SpawnPool)
    (h1 : spawnId ≠ "") (h2 : item ≠ "") (h3 : 0 < q)
    (hpool : s.active_spawn = some pool) (hid : pool.spawn_id = spawnId) :
    (dget pool.remaining item = 0 →
      (processGather spawnId item q s).1 =
        (0, false, some ("No " ++ item ++ " remaining in spawn")) ∧
      (processGather spawnId item q s).2 = s) ∧
    (dget pool.remaining item ≠ 0 →
      (processGather spawnId item q s).1.1 = min q (dget pool.remaining item) ∧
      (processGather spawnId item q s).1.2.1 = true ∧
      (∀ pool2, (processGather spawnId item q s).2.active_spawn = some pool2 →
        dget pool2.remaining item =
          dget pool.remaining item - min q (dget pool.remaining item)) ∧
      (processGather spawnId item q s).1.2.2 =
        (if min q (dget pool.remaining item) < q then
          some ("Partial: only " ++ toString (min q (dget pool.remaining item)) ++
            " remaining")
        else none)) := by
  have hq : ¬ q ≤ 0 := not_le.mpr h3
  constructor
  · intro hz
    simp [processGather, h1, h2, hq, tryGather, hpool, hid, hz]
  · intro hz
    have heval : processGather spawnId item q s =
        ((min q (dget pool.remaining item), true,
          if min q (dget pool.remaining item) < q then
            some ("Partial: only " ++ toString (min q (dget pool.remaining item)) ++
              " remaining")
          else none),
         WorldState.mk s.current_tick (some (SpawnPool.mk pool.spawn_id pool.tick
           (dset pool.remaining item
             (dget pool.remaining item - min q (dget pool.remaining item)))))) := by
      simp [processGather, h1, h2, hq, tryGather, hpool, hid, hz]
    rw [heval]
    refine ⟨rfl, rfl, ?_, rfl⟩
    intro pool2 hp2
    simp only [Option.some.injEq] at hp2
    subst hp2
    simp [dget, dlookup_dset_self]

/-- Claim C6 witness: a pool holding five units of "x" with matching spawn
id; a request for three units takes the non-zero branch, granting all
three with no partial reason and leaving two behind. -/
theorem c6_gather_semantics_witness :
    ("sp" : String) ≠ "" ∧ ("x" : String) ≠ "" ∧ (0 : ℤ) < 3 ∧
    (WorldState.mk 1 (some ⟨"sp", 1, [("x", 5)]⟩)).active_spawn =
      some ⟨"sp", 1, [("x", 5)]⟩ ∧
    (SpawnPool.mk "sp" 1 [("x", 5)]).spawn_id = "sp" ∧
    (dget (SpawnPool.mk "sp" 1 [("x", 5)]).remaining "x" ≠ 0 →
      (processGather "sp" "x" 3 (WorldState.mk 1 (some ⟨"sp", 1, [("x", 5)]⟩))).1.1 =
        min 3 (dget (SpawnPool.mk "sp" 1 [("x", 5)]).remaining "x") ∧
      (processGather "sp" "x" 3 (WorldState.mk 1 (some ⟨"sp", 1, [("x", 5)]⟩))).1.2.1 = true ∧
      (∀ pool2,
        (processGather "sp" "x" 3 (WorldState.mk 1 (some ⟨"sp", 1, [("x", 5)]⟩))).2.active_spawn =
          some pool2 →
        dget pool2.remaining "x" =
          dget (SpawnPool.mk "sp" 1 [("x", 5)]).remaining "x" -
            min 3 (dget (SpawnPool.mk "sp" 1 [("x", 5)]).remaining "x")) ∧
      (processGather "sp" "x" 3 (WorldState.mk 1 (some ⟨"sp", 1, [("x", 5)]⟩))).1.2.2 =
        (if min 3 (dget (SpawnPool.mk "sp" 1 [("x", 5)]).remaining "x") < 3 then
          some ("Partial: only " ++
            toString (min 3 (dget (SpawnPool.mk "sp" 1 [("x", 5)]).remaining "x")) ++
            " remaining")
        else none)) :=
  ⟨by decide, by decide, by decide, rfl, rfl,
    (c6_gather_semantics "sp" "x" 3 (WorldState.mk 1 (some ⟨"sp", 1, [("x", 5)]⟩))
      ⟨"sp", 1, [("x", 5)]⟩ (by decide) (by decide) (by decide) rfl rfl).2⟩

/-- A non-empty list is not `isEmpty`. -/
theorem isEmpty_false_of_ne_nil {l : List String} (h : l ≠ []) :
    l.isEmpty = false := by
  cases l with
  | nil => exact absurd rfl h
  | cons a t => rfl

/-- The checks of `process_accept` named by claim C2: the referenced order
is absent from the book, or — resolving buyer and seller from the side of the order — buyer equals seller, buyer or seller has no account, the wallet of the buyer is below the total price, or the seller lacks the traded quantity
of the item. -/
def acceptFails (accepter refId : String) (acceptQty : ℤ) (s : BankerState) :
    Prop :=
  match dlookup s.orders refId with
  | none => True
  | some order =>
    let buyer := if order.msg_type = Side.offer then accepter else order.from_agent
    let seller := if order.msg_type = Side.offer then order.from_agent else accepter
    buyer = seller ∨
    hasAccount s buyer = false ∨
    hasAccount s seller = false ∨
    walletBelow s buyer (min acceptQty order.quantity * order.price_per_unit) = true ∨
    hasInventory s seller order.item (min acceptQty order.quantity) = false

/-- Every early-return branch of `process_accept` leaves the state
untouched: an accept either settles with no errors or reports errors with
the state unchanged. -/
theorem processAccept_errors_or_unchanged (accepter refId : String)
    (acceptQty : ℤ) (s : BankerState) :
    (processAccept accepter refId acceptQty s).1.errors = [] ∨
    ((processAccept accepter refId acceptQty s).1.errors ≠ [] ∧
     (processAccept accepter refId acceptQty s).2 = s) := by
  unfold processAccept
  cases hord : dlookup s.orders refId with
  | none => simp
  | some order =>
    dsimp only
    split_ifs <;> simp

/-- A failing check forces a non-empty error list out of
`process_accept`. -/
theorem processAccept_errors_of_fails (accepter refId : String)
    (acceptQty : ℤ) (s : BankerState)
    (h : acceptFails accepter refId acceptQty s) :
    (processAccept accepter refId acceptQty s).1.errors ≠ [] := by
  unfold acceptFails at h
  unfold processAccept
  cases hord : dlookup s.orders refId with
  | none => simp
  | some order =>
    rw [hord] at h
    dsimp only at h ⊢
    by_cases hside : order.msg_type = Side.offer
    all_goals simp only [hside, ite_true, ite_false] at h ⊢
    all_goals split_ifs with hbs hba hbsa hwb hinv
    all_goals try simp
    all_goals exfalso
    all_goals simp only [Bool.not_eq_true'] at hba hbsa hinv
    all_goals rcases h with h | h | h | h | h
    all_goals first
      | exact hbs h
      | exact hba h
      | exact hbsa h
      | exact hwb h
      | exact hinv h

/-- Claim C2: an ACCEPT failing any of the checks — order absent, buyer
equals seller, buyer or seller without account, buyer wallet below the
total price, or seller lacking the traded quantity — is rejected with a
non-empty error list, the Banker publishes no Settlement for it, and the
state (every wallet, every inventory, and the order book) is left exactly
unchanged. -/
theorem c2_failed_accept_rejected_unchanged (accepter refId : String)
    (acceptQty : ℤ) (s : BankerState)
    (h : acceptFails accepter refId acceptQty s) :
    (processAccept accepter refId acceptQty s).1.errors ≠ [] ∧
    (processAccept accepter refId acceptQty s).2 = s ∧
    acceptPublishesSettlement accepter refId acceptQty s = false := by
  have herr := processAccept_errors_of_fails accepter refId acceptQty s h
  have hst : (processAccept accepter refId acceptQty s).2 = s := by
    rcases processAccept_errors_or_unchanged accepter refId acceptQty s with
      hok | ⟨_, hunch⟩
    · exact absurd hok herr
    · exact hunch
  exact ⟨herr, hst, by
    rw [acceptPublishesSettlement]
    exact isEmpty_false_of_ne_nil herr⟩

/-- Claim C2 witness: accepting a reference that is not in the book of the
empty Banker state fails the order-lookup check; the accept is rejected
and the state is returned unchanged with no settlement. -/
theorem c2_failed_accept_rejected_unchanged_witness :
    acceptFails "b" "nope" 1 {} ∧
    (processAccept "b" "nope" 1 {}).1.errors ≠ [] ∧
    (processAccept "b" "nope" 1 {}).2 = ({} : BankerState) ∧
    acceptPublishesSettlement "b" "nope" 1 {} = false :=
  ⟨trivial, c2_failed_accept_rejected_unchanged "b" "nope" 1 {} trivial⟩

/-- Claim C1: a settled ACCEPT (one `process_accept` returns without
errors) trades exactly `min(accept.quantity, order.quantity)` units for a
total price of that quantity times the unit price of the order; the buyer wallet
decreases and the seller wallet increases by exactly the total
price, the seller inventory of the traded item decreases and the
buyer inventory increases by exactly the traded quantity, and the referenced
remaining order quantity decreases by exactly the traded quantity, the
order being deleted from the book exactly when it reaches zero. -/
theorem c1_settled_accept_effects (accepter refId : String) (acceptQty : ℤ)
    (s : BankerState) (order : OrderEntry)
    (hord : dlookup s.orders refId = some order)
    (hok : (processAccept accepter refId acceptQty s).1.errors = []) :
    (processAccept accepter refId acceptQty s).1.quantity =
      min acceptQty order.quantity ∧
    (processAccept accepter refId acceptQty s).1.total_price =
      ((min acceptQty order.quantity : ℤ) : ℚ) * order.price_per_unit ∧
    walletOf (processAccept accepter refId acceptQty s).2
        (if order.msg_type = Side.offer then accepter else order.from_agent) =
      walletOf s (if order.msg_type = Side.offer then accepter else order.from_agent) -
        ((min acceptQty order.quantity : ℤ) : ℚ) * order.price_per_unit ∧
    walletOf (processAccept accepter refId acceptQty s).2
        (if order.msg_type = Side.offer then order.from_agent else accepter) =
      walletOf s (if order.msg_type = Side.offer then order.from_agent else accepter) +
        ((min acceptQty order.quantity : ℤ) : ℚ) * order.price_per_unit ∧
    invCount (processAccept accepter refId acceptQty s).2
        (if order.msg_type = Side.offer then order.from_agent else accepter) order.item =
      invCount s (if order.msg_type = Side.offer then order.from_agent else accepter)
        order.item - min acceptQty order.quantity ∧
    invCount (processAccept accepter refId acceptQty s).2
        (if order.msg_type = Side.offer then accepter else order.from_agent) order.item =
      invCount s (if order.msg_type = Side.offer then accepter else order.from_agent)
        order.item + min acceptQty order.quantity ∧
    (order.quantity = min acceptQty order.quantity →
      orderQty (processAccept accepter refId acceptQty s).2 refId = none) ∧
    (order.quantity ≠ min acceptQty order.quantity →
      orderQty (processAccept accepter refId acceptQty s).2 refId =
        some (order.quantity - min acceptQty order.quantity)) := by
  have hnf : ¬ acceptFails accepter refId acceptQty s := by
    intro hf
    exact processAccept_errors_of_fails accepter refId acceptQty s hf hok
  rw [acceptFails, hord] at hnf
  dsimp only at hnf
  simp only [not_or, Bool.not_eq_false, Bool.not_eq_true] at hnf
  obtain ⟨hbs, hba, hbsa, hwb, hinv⟩ := hnf
  set buyer := if order.msg_type = Side.offer then accepter else order.from_agent with hbuyer
  set seller := if order.msg_type = Side.offer then order.from_agent else accepter with hseller
  set tq : ℤ := min acceptQty order.quantity with htq
  set tp : ℚ := ((min acceptQty order.quantity : ℤ) : ℚ) * order.price_per_unit with htp
  have hsb : seller ≠ buyer := fun hh => hbs hh.symm
  obtain ⟨accB, hbacc⟩ := Option.isSome_iff_exists.mp hba
  obtain ⟨accS, hsacc⟩ := Option.isSome_iff_exists.mp hbsa
  have hwb2 : ¬ accB.wallet < tp := by
    rw [walletBelow, hbacc] at hwb
    simpa using hwb
  have hinv2 : ¬ dget accS.inventory order.item < tq := by
    rw [hasInventory, hsacc] at hinv
    simp only [decide_eq_true_eq, ge_iff_le] at hinv
    exact not_lt.mpr hinv
  have heval : processAccept accepter refId acceptQty s =
      ({ errors := [], buyer := buyer, seller := seller, item := order.item,
         quantity := tq, total_price := tp, reference_msg_id := refId },
       reduceOrder ((creditInventory ((debitInventory ((creditWallet
         ((debitWallet s buyer tp).2) seller tp).2) seller order.item tq).2)
         buyer order.item tq).2) refId tq) := by
    rw [processAccept, hord]
    dsimp only
    rw [← htp, ← htq, ← hbuyer, ← hseller]
    rw [if_neg hbs]
    simp [hasAccount, hba, hbsa, hbacc, hsacc, hwb, hasInventory,
      not_lt.mp hinv2]
  have hs1 : (debitWallet s buyer tp).2 = { s with accounts := dset s.accounts buyer { accB with wallet := accB.wallet - tp } } := by
    rw [debitWallet]
    simp [hbacc, hwb2]
  have hs2 : (creditWallet ({ s with accounts := dset s.accounts buyer { accB with wallet := accB.wallet - tp } } : BankerState) seller tp).2 = { s with accounts := dset (dset s.accounts buyer { accB with wallet := accB.wallet - tp }) seller { accS with wallet := accS.wallet + tp } } := by
    rw [creditWallet]
    simp only [dlookup_dset_ne _ _ _ _ hsb, hsacc]
  have hs3 : (debitInventory ({ s with accounts := dset (dset s.accounts buyer { accB with wallet := accB.wallet - tp }) seller { accS with wallet := accS.wallet + tp } } : BankerState) seller order.item tq).2 = { s with accounts := dset (dset (dset s.accounts buyer { accB with wallet := accB.wallet - tp }) seller { accS with wallet := accS.wallet + tp }) seller { wallet := accS.wallet + tp, inventory := if dget accS.inventory order.item - tq = 0 then ddel (dset accS.inventory order.item (dget accS.inventory order.item - tq)) order.item else dset accS.inventory order.item (dget accS.inventory order.item - tq) } } := by
    rw [debitInventory]
    simp only [dlookup_dset_self]
    try dsimp only
    rw [if_neg hinv2]
  have hs4 : (creditInventory ({ s with accounts := dset (dset (dset s.accounts buyer { accB with wallet := accB.wallet - tp }) seller { accS with wallet := accS.wallet + tp }) seller { wallet := accS.wallet + tp, inventory := if dget accS.inventory order.item - tq = 0 then ddel (dset accS.inventory order.item (dget accS.inventory order.item - tq)) order.item else dset accS.inventory order.item (dget accS.inventory order.item - tq) } } : BankerState) buyer order.item tq).2 = { s with accounts := dset (dset (dset (dset s.accounts buyer { accB with wallet := accB.wallet - tp }) seller { accS with wallet := accS.wallet + tp }) seller { wallet := accS.wallet + tp, inventory := if dget accS.inventory order.item - tq = 0 then ddel (dset accS.inventory order.item (dget accS.inventory order.item - tq)) order.item else dset accS.inventory order.item (dget accS.inventory order.item - tq) }) buyer { wallet := accB.wallet - tp, inventory := dset accB.inventory order.item (dget accB.inventory order.item + tq) } } := by
    rw [creditInventory]
    simp only [dlookup_dset_ne _ _ _ _ hsb.symm, dlookup_dset_self]
  have htqle : tq ≤ order.quantity := min_le_right _ _
  rw [heval, hs1, hs2, hs3, hs4]
  rw [reduceOrder]
  dsimp only
  rw [hord]
  dsimp only
  refine ⟨rfl, rfl, ?_, ?_, ?_, ?_, ?_, ?_⟩
  · split_ifs <;>
    · rw [walletOf, walletOf]
      dsimp only
      rw [dlookup_dset_self, hbacc]
  · split_ifs <;>
    · rw [walletOf, walletOf]
      dsimp only
      rw [dlookup_dset_ne _ _ _ _ hsb, dlookup_dset_self, hsacc]
  · split_ifs <;>
    · rw [invCount, invCount]
      dsimp only
      rw [dlookup_dset_ne _ _ _ _ hsb, dlookup_dset_self, hsacc]
      try dsimp only
      first
        | (rw [dget, dlookup_ddel_self]
           simp
           omega)
        | (rw [dget, dlookup_dset_self]
           rfl)
  · split_ifs <;>
    · rw [invCount, invCount]
      dsimp only
      rw [dlookup_dset_self, hbacc]
      try dsimp only
      rw [dget, dlookup_dset_self]
      rfl
  · intro hzq
    have hle : order.quantity - tq ≤ 0 := by omega
    rw [if_pos hle]
    rw [orderQty]
    dsimp only
    rw [dlookup_ddel_self]
    rfl
  · intro hzq
    have hlt : ¬ order.quantity - tq ≤ 0 := by omega
    rw [if_neg hlt]
    rw [orderQty]
    dsimp only
    rw [dlookup_dset_self]
    rfl

/-- Order used by the C1 witness: "a" offers five "x" at unit price 3. -/
def c1WitnessOrder : OrderEntry :=
  { msg_id := "o1", from_agent := "a", msg_type := Side.offer, item := "x",
    quantity := 5, price_per_unit := 3, tick := 0, expires_tick := none }

/-- State used by the C1 witness: seller "a" holds five "x", buyer "b"
holds 100 in its wallet, and the offer "o1" sits in the book. -/
def c1WitnessState : BankerState :=
  { current_tick := 0,
    accounts := [("a", { wallet := 100, inventory := [("x", 5)] }),
                 ("b", { wallet := 100, inventory := [] })],
    orders := [("o1", c1WitnessOrder)] }

/-- Claim C1 witness: buyer "b" accepts the full five units of offer "o1";
the accept settles and the settled-accept theorem applies. -/
theorem c1_settled_accept_effects_witness :
    dlookup c1WitnessState.orders "o1" = some c1WitnessOrder ∧
    (processAccept "b" "o1" 5 c1WitnessState).1.errors = [] ∧
    ((processAccept "b" "o1" 5 c1WitnessState).1.quantity =
      min 5 c1WitnessOrder.quantity ∧
    (processAccept "b" "o1" 5 c1WitnessState).1.total_price =
      ((min 5 c1WitnessOrder.quantity : ℤ) : ℚ) * c1WitnessOrder.price_per_unit ∧
    walletOf (processAccept "b" "o1" 5 c1WitnessState).2
        (if c1WitnessOrder.msg_type = Side.offer then "b" else c1WitnessOrder.from_agent) =
      walletOf c1WitnessState
          (if c1WitnessOrder.msg_type = Side.offer then "b" else c1WitnessOrder.from_agent) -
        ((min 5 c1WitnessOrder.quantity : ℤ) : ℚ) * c1WitnessOrder.price_per_unit ∧
    walletOf (processAccept "b" "o1" 5 c1WitnessState).2
        (if c1WitnessOrder.msg_type = Side.offer then c1WitnessOrder.from_agent else "b") =
      walletOf c1WitnessState
          (if c1WitnessOrder.msg_type = Side.offer then c1WitnessOrder.from_agent else "b") +
        ((min 5 c1WitnessOrder.quantity : ℤ) : ℚ) * c1WitnessOrder.price_per_unit ∧
    invCount (processAccept "b" "o1" 5 c1WitnessState).2
        (if c1WitnessOrder.msg_type = Side.offer then c1WitnessOrder.from_agent else "b")
        c1WitnessOrder.item =
      invCount c1WitnessState
          (if c1WitnessOrder.msg_type = Side.offer then c1WitnessOrder.from_agent else "b")
          c1WitnessOrder.item - min 5 c1WitnessOrder.quantity ∧
    invCount (processAccept "b" "o1" 5 c1WitnessState).2
        (if c1WitnessOrder.msg_type = Side.offer then "b" else c1WitnessOrder.from_agent)
        c1WitnessOrder.item =
      invCount c1WitnessState
          (if c1WitnessOrder.msg_type = Side.offer then "b" else c1WitnessOrder.from_agent)
          c1WitnessOrder.item + min 5 c1WitnessOrder.quantity ∧
    (c1WitnessOrder.quantity = min 5 c1WitnessOrder.quantity →
      orderQty (processAccept "b" "o1" 5 c1WitnessState).2 "o1" = none) ∧
    (c1WitnessOrder.quantity ≠ min 5 c1WitnessOrder.quantity →
      orderQty (processAccept "b" "o1" 5 c1WitnessState).2 "o1" =
        some (c1WitnessOrder.quantity - min 5 c1WitnessOrder.quantity))) :=
  ⟨rfl,
   by
    simp [c1WitnessState, c1WitnessOrder, processAccept, hasAccount,
      hasInventory, walletBelow, dlookup, dget, Option.getD, min_def]
    all_goals norm_num,
   c1_settled_accept_effects "b" "o1" 5 c1WitnessState c1WitnessOrder rfl
    (by
      simp [c1WitnessState, c1WitnessOrder, processAccept, hasAccount,
        hasInventory, walletBelow, dlookup, dget, Option.getD, min_def]
      all_goals norm_num)⟩

/-! ## Banker state invariants

The three state invariants of spec §8, restricted (as the
counterexamples above force) to schema-valid payloads. -/

/-- No wallet of any account is negative. -/
def WalletsNonneg (s : BankerState) : Prop :=
  ∀ p ∈ s.accounts, 0 ≤ p.2.wallet

/-- Every stored inventory entry has a positive count. -/
def InventoriesPos (s : BankerState) : Prop :=
  ∀ p ∈ s.accounts, ∀ q ∈ p.2.inventory, 0 < q.2

/-- Every book order has positive remaining quantity and positive unit
price. -/
def OrdersPos (s : BankerState) : Prop :=
  ∀ p ∈ s.orders, 0 < p.2.quantity ∧ 0 < p.2.price_per_unit

/-- The combined Banker invariant. -/
def BankerInv (s : BankerState) : Prop :=
  WalletsNonneg s ∧ InventoriesPos s ∧ OrdersPos s

theorem mem_ddel_ne {α : Type} {d : List (String × α)} {k : String}
    {p : String × α} (h : p ∈ ddel d k) : p ∈ d ∧ p.1 ≠ k := by
  have h2 := List.mem_filter.mp h
  refine ⟨h2.1, ?_⟩
  have h3 := h2.2
  simpa using h3

theorem foldl_preserve {α β : Type} (P : α → Prop) (f : α → β → α) :
    ∀ (l : List β) (s : α), (∀ a b, b ∈ l → P a → P (f a b)) → P s →
      P (l.foldl f s)
  | [], _, _, h => h
  | b :: t, s, hf, h =>
    foldl_preserve P f t (f s b)
      (fun a b2 hb2 => hf a b2 (List.mem_cons_of_mem _ hb2))
      (hf s b (List.mem_cons_self _ _) h)

theorem createAccount_inv {s : BankerState} {a : String} {w : ℚ}
    (hs : BankerInv s) (hw : 0 ≤ w) : BankerInv (createAccount s a w) := by
  obtain ⟨h1, h2, h3⟩ := hs
  refine ⟨?_, ?_, h3⟩
  · intro p hp
    rcases mem_dset hp with hp | hp
    · rw [hp]; exact hw
    · exact h1 p hp
  · intro p hp
    rcases mem_dset hp with hp | hp
    · rw [hp]; intro q hq; simp at hq
    · exact h2 p hp

theorem debitWallet_inv {s : BankerState} {a : String} {amt : ℚ}
    (hs : BankerInv s) : BankerInv (debitWallet s a amt).2 := by
  obtain ⟨h1, h2, h3⟩ := hs
  rw [debitWallet]
  cases hl : dlookup s.accounts a with
  | none => exact ⟨h1, h2, h3⟩
  | some acc =>
    by_cases hlt : acc.wallet < amt
    · simp only [if_pos hlt]
      exact ⟨h1, h2, h3⟩
    · simp only [if_neg hlt]
      refine ⟨?_, ?_, h3⟩
      · intro p hp
        rcases mem_dset hp with hp | hp
        · rw [hp]
          dsimp only
          linarith [not_lt.mp hlt]
        · exact h1 p hp
      · intro p hp
        rcases mem_dset hp with hp | hp
        · rw [hp]
          exact h2 (a, acc) (dlookup_mem hl)
        · exact h2 p hp

theorem creditWallet_inv {s : BankerState} {a : String} {amt : ℚ}
    (hs : BankerInv s) (hamt : 0 ≤ amt) : BankerInv (creditWallet s a amt).2 := by
  obtain ⟨h1, h2, h3⟩ := hs
  rw [creditWallet]
  cases hl : dlookup s.accounts a with
  | none => exact ⟨h1, h2, h3⟩
  | some acc =>
    refine ⟨?_, ?_, h3⟩
    · intro p hp
      rcases mem_dset hp with hp | hp
      · rw [hp]
        dsimp only
        have := h1 (a, acc) (dlookup_mem hl)
        dsimp only at this
        linarith
      · exact h1 p hp
    · intro p hp
      rcases mem_dset hp with hp | hp
      · rw [hp]
        exact h2 (a, acc) (dlookup_mem hl)
      · exact h2 p hp

theorem debitInventory_inv {s : BankerState} {a item : String} {q : ℤ}
    (hs : BankerInv s) : BankerInv (debitInventory s a item q).2 := by
  obtain ⟨h1, h2, h3⟩ := hs
  rw [debitInventory]
  cases hl : dlookup s.accounts a with
  | none => exact ⟨h1, h2, h3⟩
  | some acc =>
    by_cases hlt : dget acc.inventory item < q
    · simp only [if_pos hlt]
      exact ⟨h1, h2, h3⟩
    · simp only [if_neg hlt]
      have hinvacc := h2 (a, acc) (dlookup_mem hl)
      have hcur : 0 ≤ dget acc.inventory item := dget_pos_entries hinvacc item
      refine ⟨?_, ?_, h3⟩
      · intro p hp
        rcases mem_dset hp with hp | hp
        · rw [hp]
          exact h1 (a, acc) (dlookup_mem hl)
        · exact h1 p hp
      · intro p hp
        rcases mem_dset hp with hp | hp
        · rw [hp]
          dsimp only
          intro e he
          by_cases hz : dget acc.inventory item - q = 0
          · rw [if_pos hz] at he
            obtain ⟨he2, hne⟩ := mem_ddel_ne he
            rcases mem_dset he2 with he3 | he3
            · exact absurd (congrArg Prod.fst he3) hne
            · exact hinvacc e he3
          · rw [if_neg hz] at he
            rcases mem_dset he with he3 | he3
            · rw [he3]
              dsimp only
              rcases lt_or_eq_of_le (not_lt.mp hlt) with hh | hh
              · omega
              · omega
            · exact hinvacc e he3
        · exact h2 p hp

theorem creditInventory_inv {s : BankerState} {a item : String} {q : ℤ}
    (hs : BankerInv s) (hq : 0 < q) : BankerInv (creditInventory s a item q).2 := by
  obtain ⟨h1, h2, h3⟩ := hs
  rw [creditInventory]
  cases hl : dlookup s.accounts a with
  | none => exact ⟨h1, h2, h3⟩
  | some acc =>
    have hinvacc := h2 (a, acc) (dlookup_mem hl)
    have hcur : 0 ≤ dget acc.inventory item := dget_pos_entries hinvacc item
    refine ⟨?_, ?_, h3⟩
    · intro p hp
      rcases mem_dset hp with hp | hp
      · rw [hp]
        exact h1 (a, acc) (dlookup_mem hl)
      · exact h1 p hp
    · intro p hp
      rcases mem_dset hp with hp | hp
      · rw [hp]
        dsimp only
        intro e he
        rcases mem_dset he with he3 | he3
        · rw [he3]
          dsimp only
          omega
        · exact hinvacc e he3
      · exact h2 p hp

theorem addOrder_inv {s : BankerState} {o : OrderEntry}
    (hs : BankerInv s) (hq : 0 < o.quantity) (hp : 0 < o.price_per_unit) :
    BankerInv (addOrder s o) := by
  obtain ⟨h1, h2, h3⟩ := hs
  refine ⟨h1, h2, ?_⟩
  intro p hpm
  rcases mem_dset hpm with hpm | hpm
  · rw [hpm]; exact ⟨hq, hp⟩
  · exact h3 p hpm

theorem reduceOrder_inv {s : BankerState} {mid : String} {q : ℤ}
    (hs : BankerInv s) : BankerInv (reduceOrder s mid q) := by
  obtain ⟨h1, h2, h3⟩ := hs
  rw [reduceOrder]
  cases hl : dlookup s.orders mid with
  | none => exact ⟨h1, h2, h3⟩
  | some o =>
    dsimp only
    by_cases hle : o.quantity - q ≤ 0
    · rw [if_pos hle]
      refine ⟨h1, h2, ?_⟩
      intro p hpm
      exact h3 p (mem_ddel hpm)
    · rw [if_neg hle]
      refine ⟨h1, h2, ?_⟩
      intro p hpm
      rcases mem_dset hpm with hpm | hpm
      · rw [hpm]
        dsimp only
        exact ⟨by omega, (h3 (mid, o) (dlookup_mem hl)).2⟩
      · exact h3 p hpm

theorem purgeExpiredOrders_inv {s : BankerState}
    (hs : BankerInv s) : BankerInv (purgeExpiredOrders s) := by
  obtain ⟨h1, h2, h3⟩ := hs
  exact ⟨h1, h2, fun p hpm => h3 p (List.mem_of_mem_filter hpm)⟩

theorem processJoin_inv {s : BankerState} {f : String} {pid : Option String}
    (hs : BankerInv s) : BankerInv (processJoin f pid s).2 := by
  rw [processJoin]
  try dsimp only
  split_ifs
  · exact hs
  · exact createAccount_inv hs (by norm_num [STARTING_WALLET])

theorem processOffer_inv {s : BankerState} {f mid item : String} {q : ℤ}
    {price : ℚ} {exp : Option ℤ} (hs : BankerInv s) (hq : 0 < q)
    (hp : 0 < price) : BankerInv (processOffer f mid item q price exp s).2 := by
  rw [processOffer]
  split_ifs
  · exact hs
  · exact hs
  · exact addOrder_inv hs hq hp

theorem processBid_inv {s : BankerState} {f mid item : String} {q : ℤ}
    {price : ℚ} (hs : BankerInv s) (hq : 0 < q) (hp : 0 < price) :
    BankerInv (processBid f mid item q price s).2 := by
  rw [processBid]
  try dsimp only
  split_ifs
  · exact hs
  · exact hs
  · exact addOrder_inv hs hq hp

theorem processAccept_inv {s : BankerState} {accepter refId : String}
    {acceptQty : ℤ} (hs : BankerInv s) (hq : 0 < acceptQty) :
    BankerInv (processAccept accepter refId acceptQty s).2 := by
  rw [processAccept]
  cases hord : dlookup s.orders refId with
  | none => exact hs
  | some order =>
    dsimp only
    have horder := hs.2.2 (refId, order) (dlookup_mem hord)
    have htq0 : 0 < min acceptQty order.quantity := lt_min hq horder.1
    have htp0 : (0 : ℚ) ≤ ((min acceptQty order.quantity : ℤ) : ℚ) * order.price_per_unit := by
      have : (0 : ℚ) < ((min acceptQty order.quantity : ℤ) : ℚ) := by
        exact_mod_cast htq0
      exact le_of_lt (mul_pos this horder.2)
    split_ifs <;>
      first
        | exact hs
        | exact reduceOrder_inv
            (creditInventory_inv
              (debitInventory_inv (creditWallet_inv (debitWallet_inv hs) htp0))
              htq0)

theorem processCraftStart_inv {s : BankerState} {f : String}
    {inputs : List (String × ℤ)} (hs : BankerInv s) :
    BankerInv (processCraftStart f inputs s).2 := by
  rw [processCraftStart]
  dsimp only
  split_ifs
  · exact hs
  · exact foldl_preserve BankerInv _ inputs s
      (fun a b _ h => debitInventory_inv h) hs
  · exact hs

theorem processGatherResult_inv {s : BankerState} {a item : String} {q : ℤ}
    (hs : BankerInv s) : BankerInv (processGatherResult a item q s).2 := by
  rw [processGatherResult]
  dsimp only
  split_ifs with h1 h2 h3
  · exact hs
  · exact hs
  · exact creditInventory_inv hs (by omega)
  · exact creditInventory_inv
      (createAccount_inv hs (by norm_num [STARTING_WALLET])) (by omega)

theorem processCraftComplete_inv {s : BankerState} {f : String}
    {output : List (String × ℤ)} (hs : BankerInv s)
    (hout : ∀ p ∈ output, 0 < p.2) :
    BankerInv (processCraftComplete f output s).2 := by
  rw [processCraftComplete]
  split_ifs
  · exact hs
  · exact foldl_preserve BankerInv _ output s
      (fun a b hb h => creditInventory_inv h (hout b hb)) hs

/-- One schema-valid Banker handler invocation preserves the combined
invariant. -/
theorem bankerStep_inv {s : BankerState} {m : BMsg}
    (hm : schemaValid m = true) (hs : BankerInv s) :
    BankerInv (bankerStep s m) := by
  cases m with
  | join f pid => exact processJoin_inv hs
  | offer f mid item q p e =>
    rw [schemaValid] at hm
    simp only [Bool.and_eq_true, decide_eq_true_eq] at hm
    exact processOffer_inv hs hm.1 hm.2
  | bid f mid item q p =>
    rw [schemaValid] at hm
    simp only [Bool.and_eq_true, decide_eq_true_eq] at hm
    exact processBid_inv hs hm.1 hm.2
  | accept f r q =>
    rw [schemaValid] at hm
    simp only [decide_eq_true_eq] at hm
    exact processAccept_inv hs hm
  | craftStart f ins => exact processCraftStart_inv hs
  | craftComplete f outs =>
    rw [schemaValid] at hm
    simp only [List.all_eq_true, decide_eq_true_eq] at hm
    exact processCraftComplete_inv hs hm
  | gatherResult a item q succ =>
    rw [bankerStep]
    split_ifs
    · exact processGatherResult_inv hs
    · exact hs
  | tick t =>
    exact purgeExpiredOrders_inv hs

/-- The empty start state satisfies the invariant. -/
theorem bankerInv_empty : BankerInv ({} : BankerState) := by
  refine ⟨?_, ?_, ?_⟩ <;> intro p hp <;> simp at hp

/-- Any schema-valid message sequence keeps the invariant from the empty
start state. -/
theorem runBanker_inv (ms : List BMsg)
    (h : ∀ m ∈ ms, schemaValid m = true) : BankerInv (runBanker ms) :=
  foldl_preserve BankerInv bankerStep ms {}
    (fun _ b hb hP => bankerStep_inv (h b hb) hP) bankerInv_empty

/-- Claim C3 (amended): starting from the empty Banker state, after any
sequence of schema-valid JOIN, OFFER, BID, ACCEPT, CRAFT_START,
CRAFT_COMPLETE, GATHER_RESULT and TICK messages (offers and bids carrying
positive quantity and price, accepts positive quantity, craft-complete
outputs positive counts, as the payload schemas require), no wallet of any
account is ever negative; since this holds for every such sequence it holds
after every prefix, i.e. at every point of the run. -/
theorem c3_wallets_never_negative (ms : List BMsg)
    (h : ∀ m ∈ ms, schemaValid m = true) :
    ∀ p ∈ (runBanker ms).accounts, 0 ≤ p.2.wallet :=
  (runBanker_inv ms h).1

/-- Claim C3 witness: the single-message sequence of one JOIN is
schema-valid and leaves the one account with the non-negative starting
wallet. -/
theorem c3_wallets_never_negative_witness :
    (∀ m ∈ [BMsg.join "a" none], schemaValid m = true) ∧
    ∀ p ∈ (runBanker [BMsg.join "a" none]).accounts, 0 ≤ p.2.wallet :=
  ⟨by decide, c3_wallets_never_negative [BMsg.join "a" none] (by decide)⟩

/-- Claim C4 (amended): starting from the empty Banker state, after any
sequence of schema-valid messages (in particular craft-complete outputs
with positive counts — the payload convention of §6; the Banker itself
enforces positivity only for GATHER_RESULT), no stored inventory entry of
any account has count ≤ 0: debits that reach zero delete the key and
schema-valid credits keep every stored count positive. -/
theorem c4_inventory_entries_positive (ms : List BMsg)
    (h : ∀ m ∈ ms, schemaValid m = true) :
    ∀ p ∈ (runBanker ms).accounts, ∀ q ∈ p.2.inventory, 0 < q.2 :=
  (runBanker_inv ms h).2.1

/-- Claim C4 witness: a gather of three "x" credits a positive entry. -/
theorem c4_inventory_entries_positive_witness :
    (∀ m ∈ [BMsg.gatherResult "a" "x" 3 true], schemaValid m = true) ∧
    ∀ p ∈ (runBanker [BMsg.gatherResult "a" "x" 3 true]).accounts,
      ∀ q ∈ p.2.inventory, 0 < q.2 :=
  ⟨by decide,
   c4_inventory_entries_positive [BMsg.gatherResult "a" "x" 3 true] (by decide)⟩

/-- Claim C9 (amended): starting from the empty Banker state, under
schema-valid messages (offers and bids carrying positive quantity as their
payload schemas require), every entry of the order book has remaining
quantity > 0 at all times: entries are created from offers and bids with
positive quantity, trades only reduce them with deletion at zero, and
expiry purges only remove entries. -/
theorem c9_orders_positive_quantity (ms : List BMsg)
    (h : ∀ m ∈ ms, schemaValid m = true) :
    ∀ p ∈ (runBanker ms).orders, 0 < p.2.quantity :=
  fun p hp => ((runBanker_inv ms h).2.2 p hp).1

/-- Claim C9 witness: a join followed by a valid offer of two units leaves
one book entry with positive remaining quantity. -/
theorem c9_orders_positive_quantity_witness :
    (∀ m ∈ [BMsg.join "a" none, BMsg.gatherResult "a" "x" 2 true,
        BMsg.offer "a" "o1" "x" 2 1 none], schemaValid m = true) ∧
    ∀ p ∈ (runBanker [BMsg.join "a" none, BMsg.gatherResult "a" "x" 2 true,
        BMsg.offer "a" "o1" "x" 2 1 none]).orders, 0 < p.2.quantity :=
  ⟨by decide,
   c9_orders_positive_quantity [BMsg.join "a" none,
     BMsg.gatherResult "a" "x" 2 true, BMsg.offer "a" "o1" "x" 2 1 none]
     (by decide)⟩

/-- Case analysis of one gather against a pool: either the request is
rejected with zero granted and the state unchanged, or it succeeds against
the matching spawn id, granting `min(requested, available)` and
decrementing the pool by exactly that amount. -/
theorem processGather_cases (spawnId item2 : String) (q ct tick0 : ℤ)
    (sid : String) (rem : List (String × ℤ)) :
    ((processGather spawnId item2 q
        (WorldState.mk ct (some (SpawnPool.mk sid tick0 rem)))).1.2.1 = false ∧
     (processGather spawnId item2 q
        (WorldState.mk ct (some (SpawnPool.mk sid tick0 rem)))).2 =
       WorldState.mk ct (some (SpawnPool.mk sid tick0 rem))) ∨
    (spawnId = sid ∧ 0 < q ∧ dget rem item2 ≠ 0 ∧
     (processGather spawnId item2 q
        (WorldState.mk ct (some (SpawnPool.mk sid tick0 rem)))).1.1 =
       min q (dget rem item2) ∧
     (processGather spawnId item2 q
        (WorldState.mk ct (some (SpawnPool.mk sid tick0 rem)))).1.2.1 = true ∧
     (processGather spawnId item2 q
        (WorldState.mk ct (some (SpawnPool.mk sid tick0 rem)))).2 =
       WorldState.mk ct (some (SpawnPool.mk sid tick0
         (dset rem item2 (dget rem item2 - min q (dget rem item2)))))) := by
  by_cases h1 : spawnId = ""
  · left
    simp [processGather, h1]
  by_cases h2 : item2 = ""
  · left
    simp [processGather, h1, h2]
  by_cases h3 : q ≤ 0
  · left
    simp [processGather, h1, h2, h3]
  by_cases h4 : sid ≠ spawnId
  · left
    simp [processGather, h1, h2, h3, tryGather, h4]
  by_cases h5 : dget rem item2 = 0
  · left
    simp [processGather, h1, h2, h3, tryGather, h4, h5]
  · right
    have hsid : spawnId = sid := (not_ne_iff.mp h4).symm
    refine ⟨hsid, by omega, h5, ?_, ?_, ?_⟩ <;>
      simp [processGather, h1, h2, h3, tryGather, h4, h5]

/-- Conservation induction for a fixed pool: processing any request list,
the total granted for an item never exceeds what the pool held, and the
remaining counts stay non-negative. -/
theorem runGathers_aux (sid : String) (tick0 ct : ℤ) (item : String) :
    ∀ (reqs : List GatherRequest) (rem : List (String × ℤ)),
      (∀ p ∈ rem, 0 ≤ p.2) →
      grantedTotal (runGathers reqs
          (WorldState.mk ct (some (SpawnPool.mk sid tick0 rem)))).1 sid item ≤
        dget rem item ∧
      ∀ pool2 ∈ (runGathers reqs
          (WorldState.mk ct (some (SpawnPool.mk sid tick0 rem)))).2.active_spawn,
        ∀ p ∈ pool2.remaining, 0 ≤ p.2
  | [], rem, hpos => by
    constructor
    · simpa [runGathers, grantedTotal] using dget_nonneg hpos item
    · intro pool2 hp2 p hp
      rw [runGathers] at hp2
      simp only [Option.mem_def, Option.some.injEq] at hp2
      rw [← hp2] at hp
      exact hpos p hp
  | r :: rest, rem, hpos => by
    rw [runGathers]
    rcases processGather_cases r.spawnId r.item r.quantity ct tick0 sid rem with
      ⟨hfail, hstate⟩ | ⟨hsid, hq, hnz, hgr, hsucc, hstate⟩
    · rw [hstate]
      obtain ⟨ih1, ih2⟩ := runGathers_aux sid tick0 ct item rest rem hpos
      refine ⟨?_, ih2⟩
      dsimp only
      rw [grantedTotal]
      rw [if_neg (by simp [hfail])]
      omega
    · subst hsid
      have hgle : min r.quantity (dget rem r.item) ≤ dget rem r.item :=
        min_le_right _ _
      have hrem2 : ∀ p ∈ dset rem r.item
          (dget rem r.item - min r.quantity (dget rem r.item)), 0 ≤ p.2 := by
        intro p hp
        rcases mem_dset hp with hp | hp
        · rw [hp]; dsimp only; omega
        · exact hpos p hp
      obtain ⟨ih1, ih2⟩ := runGathers_aux r.spawnId tick0 ct item rest
        (dset rem r.item (dget rem r.item - min r.quantity (dget rem r.item)))
        hrem2
      rw [hstate]
      refine ⟨?_, ih2⟩
      dsimp only
      rw [grantedTotal]
      dsimp only
      by_cases hit : r.item = item
      · subst hit
        have hdg : dget (dset rem r.item
            (dget rem r.item - min r.quantity (dget rem r.item))) r.item =
            dget rem r.item - min r.quantity (dget rem r.item) := by
          rw [dget, dlookup_dset_self]
          rfl
        rw [hdg] at ih1
        rw [if_pos ⟨hsucc, rfl, rfl⟩, hgr]
        omega
      · have hdg : dget (dset rem r.item
            (dget rem r.item - min r.quantity (dget rem r.item))) item =
            dget rem item := by
          rw [dget, dget, dlookup_dset_ne _ _ _ _ (fun hh => hit hh.symm)]
          rfl
        rw [hdg] at ih1
        rw [if_neg (fun hc => hit hc.2.2)]
        omega

/-- Claim C7: for a spawn pool created with non-negative initial counts
and any sequence of gather requests processed in order by the World
Engine, the sum of granted quantities over the successful GatherResults
against the spawn id of that pool never exceeds the initial pool count for
the item, and no remaining count ever becomes negative (the statement
quantifies over every request sequence, hence over every prefix of a
run). -/
theorem c7_gather_never_exceeds_initial (reqs : List GatherRequest)
    (sid : String) (tick0 ct : ℤ) (init : List (String × ℤ)) (item : String)
    (hpos : ∀ p ∈ init, 0 ≤ p.2) :
    grantedTotal (runGathers reqs
        (WorldState.mk ct (some (SpawnPool.mk sid tick0 init)))).1 sid item ≤
      dget init item ∧
    ∀ pool2 ∈ (runGathers reqs
        (WorldState.mk ct (some (SpawnPool.mk sid tick0 init)))).2.active_spawn,
      ∀ p ∈ pool2.remaining, 0 ≤ p.2 :=
  runGathers_aux sid tick0 ct item reqs init hpos

/-- Claim C7 witness: two agents race for ten nails (the scenario of §8);
the first request takes all ten, the second is rejected, so the granted
total stays within the initial count and the pool stays non-negative. -/
theorem c7_gather_never_exceeds_initial_witness :
    (∀ p ∈ [("nails", (10 : ℤ))], 0 ≤ p.2) ∧
    grantedTotal (runGathers
        [GatherRequest.mk "sp" "nails" 10, GatherRequest.mk "sp" "nails" 5]
        (WorldState.mk 1 (some (SpawnPool.mk "sp" 1 [("nails", 10)])))).1
        "sp" "nails" ≤ dget [("nails", (10 : ℤ))] "nails" ∧
    ∀ pool2 ∈ (runGathers
        [GatherRequest.mk "sp" "nails" 10, GatherRequest.mk "sp" "nails" 5]
        (WorldState.mk 1 (some (SpawnPool.mk "sp" 1 [("nails", 10)])))).2.active_spawn,
      ∀ p ∈ pool2.remaining, 0 ≤ p.2 :=
  ⟨by decide,
   c7_gather_never_exceeds_initial
     [GatherRequest.mk "sp" "nails" 10, GatherRequest.mk "sp" "nails" 5]
     "sp" 1 1 [("nails", 10)] "nails" (by decide)⟩

end StreetMarket
